import Mathlib

/-!
Verification of the cart pipeline of `backend/center_object_classifier.py`.

The Python source is shallowly embedded: dictionaries become structures or
association lists (`List (String × _)`, insertion-ordered with unique keys,
mirroring Python dicts), floats become exact rationals (`ℚ`), wall-clock
times become `ℚ` values, and external services (Gemini, `json.loads`,
`cv2.compareHist`, `cv2.imwrite`) are parameters of the embedded functions.
Python truthiness of optional record fields is modelled by `Option.isSome`
(the code only ever stores `None` or non-empty values in those fields).
-/

section CenterObjectClassifier

attribute [local semireducible] Rat.ofScientific Rat.add Rat.mul Rat.sub Rat.inv

/-! ## Python string primitives -/

/-- Character-wise lower-casing, the embedding of Python `str.lower()`
(ASCII-faithful). -/
def pyLower (s : String) : String := String.mk (s.data.map Char.toLower)

/-- Prefix test: `charsStartWith n h` is true when `n` is a prefix of `h`. -/
def charsStartWith : List Char → List Char → Bool
  | [], _ => true
  | _ :: _, [] => false
  | a :: as, b :: bs => a == b && charsStartWith as bs

/-- Occurrence test: `charsContain h n` is true when `n` occurs inside `h`. -/
def charsContain (hay needle : List Char) : Bool :=
  match hay with
  | [] => charsStartWith needle []
  | _ :: rest => charsStartWith needle hay || charsContain rest needle

/-- The embedding of Python's substring test `needle in hay`. -/
def strContains (hay needle : String) : Bool := charsContain hay.data needle.data

/-- Split a character list on runs of whitespace, discarding empty pieces:
the embedding of Python `str.split()` with no arguments. `acc` holds the
(reversed) word currently being read. -/
def pySplitAux (cs : List Char) (acc : List Char) : List String :=
  match cs with
  | [] => if acc.isEmpty then [] else [String.mk acc.reverse]
  | c :: rest =>
    if c.isWhitespace then
      if acc.isEmpty then pySplitAux rest []
      else String.mk acc.reverse :: pySplitAux rest []
    else pySplitAux rest (c :: acc)

/-- Python `str.split()`. -/
def pySplit (s : String) : List String := pySplitAux s.data []

/-- Python `str.title()` (ASCII-faithful): upper-case every letter that does
not follow a letter, lower-case the others. -/
def pyTitleAux : Bool → List Char → List Char
  | _, [] => []
  | prev, c :: cs =>
    if c.isAlpha then (if prev then c.toLower else c.toUpper) :: pyTitleAux true cs
    else c :: pyTitleAux false cs

/-- Python `str.title()`. -/
def pyTitle (s : String) : String := String.mk (pyTitleAux false s.data)

/-! ## Similarity heuristics (`calculate_name_similarity` and friends) -/

/-- The `common_words` stop-word list of `calculate_name_similarity`. -/
def common_words : List String :=
  ["can", "bottle", "box", "pack", "container", "the", "a", "an", "grab", "go",
   "snack", "potato", "crisps"]

/-- The `brand_words` list of `calculate_name_similarity`. -/
def brand_words : List String := ["pringles", "coca-cola", "coke", "diet", "ensure"]

/-- The comprehension `[w.lower() for w in name.split() if w.lower() not in common_words]`. -/
def filteredWords (name : String) : List String :=
  ((pySplit name).map pyLower).filter (fun w => ¬ common_words.contains w)

/-- The comprehension `[w for w in words if w not in brand_words]`. -/
def coreWords (ws : List String) : List String :=
  ws.filter (fun w => ¬ brand_words.contains w)

/-- Python `len(set(a) & set(b))`, the size of the set intersection of two word lists. -/
def interCard (a b : List String) : ℕ := (a.toFinset ∩ b.toFinset).card

/-- Python `len(set(a) | set(b))`, the size of the set union of two word lists. -/
def unionCard (a b : List String) : ℕ := (a.toFinset ∪ b.toFinset).card

/-- The guarded ratio `overlap / total if total > 0 else 0.0`. -/
def overlapRatio (w1 w2 : List String) : ℚ :=
  if 0 < unionCard w1 w2 then (interCard w1 w2 : ℚ) / (unionCard w1 w2 : ℚ) else 0

/-- The embedding of `calculate_name_similarity(name1, name2)`: token-set
overlap with stop words removed, with the same-brand floor/boost branch. -/
def calculateNameSimilarity (name1 name2 : String) : ℚ :=
  if name1 = "" ∨ name2 = "" then 0
  else
    let words1 := filteredWords name1
    let words2 := filteredWords name2
    if words1 = [] ∨ words2 = [] then 0
    else if brand_words.any (fun b => words1.contains b && words2.contains b) then
      if coreWords words1 = [] ∨ coreWords words2 = [] then 0.9
      else min 0.95 (overlapRatio (coreWords words1) (coreWords words2) + 0.3)
    else overlapRatio words1 words2

/-- The brand alias table of `normalize_brand_name`, in source order. -/
def brand_mappings : List (String × String) :=
  [("coca-cola", "Coca-Cola"), ("coca cola", "Coca-Cola"), ("coke", "Coca-Cola"),
   ("diet coke", "Coca-Cola"), ("coca-cola (diet coke)", "Coca-Cola"),
   ("pringles", "Pringles"), ("pringle", "Pringles"), ("ensure", "Ensure")]

/-- The embedding of `normalize_brand_name(brand)`. -/
def normalizeBrandName (brand : String) : String :=
  if brand = "" ∨ ["unknown", "n/a", "uncertain"].contains (pyLower brand) then "Unknown"
  else
    let brand_lower := pyLower brand
    match brand_mappings.find? (fun kv => strContains brand_lower kv.1) with
    | some kv => kv.2
    | none => pyTitle brand

/-! ## Cart data model

A `CartItem` embeds the per-item dict stored in `self.cart`; a cart is the
insertion-ordered association list of `(item_key, item)` pairs (a Python dict;
its keys are unique).  A freshly inserted item carries no `price` key, which
is embedded as `price := none`. -/

structure CartItem where
  name : String
  brand : String
  category : String
  count : ℤ
  confidence : ℚ
  last_seen : ℚ
  deal_analysis : Option String
  price : Option ℚ
  image_path : Option String
deriving DecidableEq

abbrev Cart := List (String × CartItem)

/-- Dict lookup `m[k]` / `k in m` on an association list. -/
def lookupKey {α : Type} (m : List (String × α)) (k : String) : Option α :=
  match m with
  | [] => none
  | (k', v) :: rest => if k' = k then some v else lookupKey rest k

/-- Dict assignment `m[k] = v`: overwrite in place, else append. -/
def dictSet {α : Type} (m : List (String × α)) (k : String) (v : α) : List (String × α) :=
  match m with
  | [] => [(k, v)]
  | (k', v') :: rest => if k' = k then (k, v) :: rest else (k', v') :: dictSet rest k v

/-- In-place mutation of the entry stored under key `k`
(`deduplicated_cart[merged_key]` aliases the stored dict). -/
def updateEntry (cart : Cart) (k : String) (f : CartItem → CartItem) : Cart :=
  match cart with
  | [] => []
  | (k', it) :: rest => if k' = k then (k', f it) :: rest else (k', it) :: updateEntry rest k f

/-- The similarity test of `_find_matching_cart_key` on a `(name, brand)` pair:
`name_similarity > 0.8 and brand_similarity > 0.8`. -/
def nbMatch (cand exist : String × String) : Bool :=
  decide (0.8 < calculateNameSimilarity (pyLower cand.1) (pyLower exist.1)) &&
  decide (0.8 < calculateNameSimilarity (pyLower cand.2) (pyLower exist.2))

/-- The per-entry test of `_find_matching_cart_key`. -/
def entryMatches (candidate existing : CartItem) : Bool :=
  nbMatch (candidate.name, candidate.brand) (existing.name, existing.brand)

/-- The embedding of `_find_matching_cart_key(existing_cart, candidate)`:
the key of the first entry whose name and brand similarities with the
candidate both exceed 0.8. -/
def findMatchingCartKey (existing_cart : Cart) (candidate : CartItem) : Option String :=
  match existing_cart with
  | [] => none
  | (k, e) :: rest =>
    if entryMatches candidate e then some k else findMatchingCartKey rest candidate

/-- The merge performed by `deduplicate_cart_entries` when a candidate matched
an already deduplicated entry `m`. -/
def mergeItems (m x : CartItem) : CartItem :=
  { m with
    count := m.count + x.count,
    confidence := max m.confidence x.confidence,
    last_seen := max m.last_seen x.last_seen,
    deal_analysis := if x.deal_analysis.isSome then x.deal_analysis else m.deal_analysis,
    price := if x.price.isSome && m.price.isNone then x.price else m.price,
    image_path := if x.image_path.isSome then x.image_path else m.image_path }

/-- One iteration of the `for item_key, item_data in self.cart.items()` loop of
`deduplicate_cart_entries`. -/
def dedupStep (deduplicated_cart : Cart) (entry : String × CartItem) : Cart :=
  match findMatchingCartKey deduplicated_cart entry.2 with
  | some merged_key => updateEntry deduplicated_cart merged_key (fun m => mergeItems m entry.2)
  | none => deduplicated_cart ++ [entry]

/-- The embedding of `deduplicate_cart_entries`. -/
def deduplicateCartEntries (cart : Cart) : Cart := cart.foldl dedupStep []

/-- Python `sum(item['count'] for item in cart.values())`, the total item count used
by `build_cart_summary`. -/
def totalCount (cart : Cart) : ℤ := (cart.map (fun e => e.2.count)).sum

/-! ## `update_cart` and its filters -/

/-- A single classification record produced by the external classifier. -/
structure Classification where
  object_name : String
  brand : String
  category : String
  confidence : ℚ
deriving DecidableEq

/-- The part of the classifier state touched by `update_cart`. -/
structure ClassifierState where
  cart : Cart
  last_cart_update : List (String × ℚ)
  bag_detected : Bool
  bag_detection_confidence : ℚ
deriving DecidableEq

def BAG_DETECTION_KEYWORDS : List String :=
  ["bag", "shopping bag", "tote", "container", "basket", "cart"]

def GROCERY_CATEGORIES : List String :=
  ["food", "beverage", "snack", "snack food", "dairy", "produce", "meat", "bakery",
   "frozen", "pantry", "condiment", "spice", "cereal", "candy", "chocolate", "drink",
   "juice", "soda", "water", "coffee", "tea", "alcohol", "wine", "beer"]

def NON_GROCERY_CATEGORIES : List String :=
  ["sports equipment", "hardware", "electronics", "clothing", "accessory",
   "exercise equipment", "furniture", "toy", "book", "tool", "appliance", "beauty",
   "health", "cleaning", "automotive", "garden", "office", "pet", "baby", "home",
   "kitchen", "bathroom", "bedroom", "living room"]

def grocery_keywords : List String :=
  ["can", "bottle", "box", "bag", "jar", "carton", "pack", "container", "drink",
   "food", "snack", "cereal", "milk", "juice", "soda", "beer", "wine", "coffee",
   "tea", "bread", "meat", "cheese", "yogurt", "candy", "chocolate", "cookie",
   "cracker", "chip", "nut", "fruit", "vegetable", "sauce", "spice", "oil",
   "vinegar", "sugar", "salt", "flour", "rice", "pasta", "soup", "frozen",
   "ice cream"]

def MIN_CONFIDENCE_THRESHOLD : ℚ := 0.88

/-- The constant `CART_UPDATE_COOLDOWN` as finally bound at module level (the second
assignment, `0.0`, overwrites the earlier `10.0`). -/
def CART_UPDATE_COOLDOWN : ℚ := 0.0

/-- The embedding of `is_bag_detected` on a single classification dict. -/
def isBagDetectedObj (obj : Classification) : Bool :=
  BAG_DETECTION_KEYWORDS.any (fun keyword =>
    strContains (pyLower obj.object_name) keyword || strContains (pyLower obj.category) keyword)

/-- The embedding of `is_grocery_item` on a single classification dict:
the explicit non-grocery category list rejects first, the grocery category
list accepts, otherwise grocery keywords of the object name accept. -/
def isGroceryItemObj (obj : Classification) : Bool :=
  let category := pyLower obj.category
  let object_name := pyLower obj.object_name
  if NON_GROCERY_CATEGORIES.any (fun c => strContains category (pyLower c)) then false
  else if GROCERY_CATEGORIES.any (fun c => strContains category (pyLower c)) then true
  else grocery_keywords.any (fun keyword => strContains object_name keyword)

/-- The embedding of `is_duplicate_item(object_name, brand)`: true when some
existing cart entry has both name similarity and brand similarity above 0.8. -/
def isDuplicateItem (cart : Cart) (object_name brand : String) : Bool :=
  cart.any (fun e =>
    decide (0.8 < calculateNameSimilarity (pyLower object_name) (pyLower e.2.name)) &&
    decide (0.8 < calculateNameSimilarity (pyLower brand) (pyLower e.2.brand)))

/-- The body of the `for obj in objects` loop of `update_cart` for one
classification dict.  `llm` is the external semantic duplicate check
(`check_cart_duplicate_with_llm`), a black-box boolean oracle; the returned
flag is this iteration's contribution to `cart_modified`. -/
def processObj (llm : Classification → ℚ → Bool) (s : ClassifierState)
    (current_time : ℚ) (image_path : Option String) (obj : Classification) :
    ClassifierState × Bool :=
  let object_name := obj.object_name
  let brand := obj.brand
  let normalized_brand := normalizeBrandName brand
  let category := obj.category
  let confidence := obj.confidence
  if confidence < MIN_CONFIDENCE_THRESHOLD then (s, false)
  else if isBagDetectedObj obj then
    ({ s with bag_detected := true, bag_detection_confidence := confidence }, false)
  else if object_name = "no_hand_holding_object" then (s, false)
  else if object_name = "unidentifiable_item" then (s, false)
  else if ¬ isGroceryItemObj obj then (s, false)
  else if isDuplicateItem s.cart object_name normalized_brand then (s, false)
  else if llm obj current_time then (s, false)
  else
    let item_key := pyLower (object_name ++ "_" ++ normalized_brand)
    if (match lookupKey s.last_cart_update item_key with
        | some t0 => decide (current_time - t0 < CART_UPDATE_COOLDOWN)
        | none => false) then (s, false)
    else
      let cart' :=
        if (lookupKey s.cart item_key).isSome then
          updateEntry s.cart item_key (fun it =>
            { it with
              count := it.count + 1,
              last_seen := current_time,
              image_path := if image_path.isSome then image_path else it.image_path })
        else
          s.cart ++ [(item_key,
            { name := object_name, brand := normalized_brand, category := category,
              count := 1, confidence := confidence, last_seen := current_time,
              deal_analysis := none, price := none, image_path := image_path })]
      ({ s with
         cart := cart',
         last_cart_update := dictSet s.last_cart_update item_key current_time }, true)

/-- The embedding of `update_cart(classification_result, image_path)` for a
list of classification dicts (a single dict is the singleton list).  The
returned flag is `cart_modified`; when it is true the caller records
`_last_cart_update` and invokes `schedule_cart_flush`. -/
def updateCart (llm : Classification → ℚ → Bool) (s : ClassifierState)
    (current_time : ℚ) (image_path : Option String) (objects : List Classification) :
    ClassifierState × Bool :=
  objects.foldl
    (fun acc obj =>
      let r := processObj llm acc.1 current_time image_path obj
      (r.1, acc.2 || r.2))
    (s, false)

/-! ## Scene change detection (`detect_scene_change`)

Histograms (`cv2.calcHist` output) are opaque data, embedded as `List ℚ`;
the correlation metric `cv2.compareHist(..., HISTCMP_CORREL)` is an external
primitive, passed as the parameter `corr`.  The detector state is
`self.previous_histogram : Option Hist`. -/

abbrev Hist := List ℚ

def HISTOGRAM_COMPARISON_THRESHOLD : ℚ := 0.7

/-- The embedding of `detect_scene_change(frame)` acting on the stored
previous histogram: returns the flag and the new stored histogram.  Mirrors
the source exactly: the stored histogram is assigned only in the
`previous_histogram is None` branch. -/
def detectSceneChange (corr : Hist → Hist → ℚ) (previous_histogram : Option Hist)
    (current_histogram : Hist) : Bool × Option Hist :=
  match previous_histogram with
  | some prev =>
    (decide (corr prev current_histogram < HISTOGRAM_COMPARISON_THRESHOLD), some prev)
  | none => (false, some current_histogram)

/-- Run the detector over a sequence of per-frame histograms, collecting the
scene-change flags and the final stored histogram. -/
def runSceneDetector (corr : Hist → Hist → ℚ) (previous_histogram : Option Hist) :
    List Hist → List Bool × Option Hist
  | [] => ([], previous_histogram)
  | h :: hs =>
    let step := detectSceneChange corr previous_histogram h
    let rest := runSceneDetector corr step.2 hs
    (step.1 :: rest.1, rest.2)

/-! ## Capture gate (`capture_image`) -/

def CAPTURE_COOLDOWN : ℚ := 2.0

/-- The embedding of `capture_image`.  `imwriteOk` is the result of the
external `cv2.imwrite`; `timestamp` and `confStr` stand for the formatted
`datetime.now()` and `f"{confidence:.2f}"` strings.  Returns the new
`last_capture_time` and the saved path (or `none`). -/
def captureImage (imwriteOk : Bool) (timestamp label confStr : String)
    (last_capture_time current_time : ℚ) : ℚ × Option String :=
  if current_time - last_capture_time < CAPTURE_COOLDOWN then (last_capture_time, none)
  else
    let filename := timestamp ++ "_" ++ label ++ "_" ++ confStr ++ ".jpg"
    if imwriteOk then (current_time, some ("captures/" ++ filename))
    else (last_capture_time, none)

/-! ## Debounced persistence flush (`schedule_cart_flush`)

The single attribute `self._flush_task` holds at most one task; it is
embedded as `pendingFire : Option ℚ`, the wall-clock time at which the one
outstanding flush task's `asyncio.sleep(RESULTS_FLUSH_DELAY)` elapses.
Under asyncio's single-threaded cooperative scheduling, by the time the
event-loop reaches a mutation at time `t` the outstanding task has already
run (performing one persisted write) exactly when its fire time is `≤ t`;
`completePending` accounts for that.  `schedule_cart_flush` then cancels a
still-pending task and creates the new one. -/

def RESULTS_FLUSH_DELAY : ℚ := 2.0

structure FlushSim where
  pendingFire : Option ℚ
  writes : ℕ
deriving DecidableEq

/-- Let the one outstanding flush task run if its delay elapsed before `t`. -/
def completePending (s : FlushSim) (t : ℚ) : FlushSim :=
  match s.pendingFire with
  | some f => if f ≤ t then { pendingFire := none, writes := s.writes + 1 } else s
  | none => s

/-- The embedding of `schedule_cart_flush` called at time `t`: cancel any
not-yet-completed flush task and create the new one, due at
`t + RESULTS_FLUSH_DELAY`. -/
def scheduleCartFlush (s : FlushSim) (t : ℚ) : FlushSim :=
  { pendingFire := some (t + RESULTS_FLUSH_DELAY), writes := s.writes }

/-- A cart mutation at time `t`: the event loop first lets a due flush task
run, then `update_cart` ends with `schedule_cart_flush`. -/
def cartMutation (s : FlushSim) (t : ℚ) : FlushSim :=
  scheduleCartFlush (completePending s t) t

/-- A whole run of cart mutations at the given times. -/
def runMutations (s : FlushSim) (ts : List ℚ) : FlushSim := ts.foldl cartMutation s

/-- Shutdown: the outstanding flush task, if any, is awaited and performs its
write. -/
def awaitFinalFlush (s : FlushSim) : FlushSim :=
  match s.pendingFire with
  | some _ => { pendingFire := none, writes := s.writes + 1 }
  | none => s

/-! ## LLM duplicate check (`check_cart_duplicate_with_llm`)

Python's dynamically typed JSON values are embedded as `PyVal`; `json.loads`
is the external-library parameter `jsonLoads` (`none` embeds a raised
`json.JSONDecodeError`), and the Gemini call is the parameter `response`
(`Except.error` embeds a raised exception, caught by the outer handler).
The Python function returns the raw `is_duplicate` value, which its only
caller uses as a boolean; the embedding returns that value's truthiness. -/

inductive PyVal where
  | pyNone : PyVal
  | pyBool : Bool → PyVal
  | pyNum : ℚ → PyVal
  | pyStr : String → PyVal
  | pyList : List PyVal → PyVal
  | pyDict : List (String × PyVal) → PyVal

/-- Python truthiness of a JSON value. -/
def pyTruthy : PyVal → Bool
  | .pyNone => false
  | .pyBool b => b
  | .pyNum q => decide (q ≠ 0)
  | .pyStr s => decide (s ≠ "")
  | .pyList l => ¬ l.isEmpty
  | .pyDict l => ¬ l.isEmpty

/-- Python `dict.get(k, default)`. -/
def pyDictGet (d : List (String × PyVal)) (k : String) (default : PyVal) : PyVal :=
  match lookupKey d k with
  | some v => v
  | none => default

def backquote : Char := '\x60'
def lbrace : Char := '\x7b'
def rbrace : Char := '\x7d'

/-- Python `re.sub(r'^```(?:json)?\s*\n?', '', t)` for a `t` that starts with the
fence: drop the fence, an optional `json` tag, and the following whitespace
run. -/
def stripLeadingFence (t : String) : String :=
  let r := t.drop 3
  let r := if r.startsWith "json" then r.drop 4 else r
  String.mk (r.data.dropWhile Char.isWhitespace)

/-- Python `re.sub(r'\n?```\s*$', '', t)`: remove a trailing fence (with trailing
whitespace and one optional preceding newline) when present. -/
def stripTrailingFence (t : String) : String :=
  let r := t.data.reverse.dropWhile Char.isWhitespace
  match r with
  | c1 :: c2 :: c3 :: rest =>
    if c1 = backquote ∧ c2 = backquote ∧ c3 = backquote then
      let rest := match rest with
        | '\n' :: rs => rs
        | rs => rs
      String.mk rest.reverse
    else t
  | _ => t

/-- The markdown-fence cleanup applied to the raw response text. -/
def cleanLLMText (response_text : String) : String :=
  let cleaned_text := response_text.trim
  if cleaned_text.startsWith "```" then
    stripTrailingFence (stripLeadingFence cleaned_text)
  else cleaned_text

/-- Python `re.search(r'\{.*\}', cleaned_text, re.DOTALL)`: the span from the first
open brace to the last close brace, when a close brace follows the first
open brace. -/
def braceSpan (s : String) : Option String :=
  let afterFirst := s.data.dropWhile (fun c => c ≠ lbrace)
  match afterFirst with
  | [] => none
  | _ :: tail =>
    if tail.contains rbrace then
      some (String.mk (afterFirst.reverse.dropWhile (fun c => c ≠ rbrace)).reverse)
    else none

/-- The string handed to `json.loads`: the brace span when the regex
matches, the cleaned text otherwise. -/
def jsonCandidate (response_text : String) : String :=
  let cleaned := cleanLLMText response_text
  match braceSpan cleaned with
  | some json_str => json_str
  | none => cleaned

/-- The embedding of `check_cart_duplicate_with_llm`.  `geminiOk` embeds
`self.gemini_client and GEMINI_AVAILABLE`.  Every failure path of the source
(service exception, unparseable JSON, non-dict result) is a `false` return;
no exception escapes. -/
def checkCartDuplicateWithLLM (jsonLoads : String → Option PyVal) (geminiOk : Bool)
    (response : Except Unit String) : Bool :=
  if ¬ geminiOk then false
  else
    match response with
    | .error _ => false
    | .ok response_text =>
      match jsonLoads (jsonCandidate response_text) with
      | none => false
      | some result =>
        match result with
        | .pyDict d => pyTruthy (pyDictGet d "is_duplicate" (.pyBool false))
        | _ => false

/-! ## Price extraction (`extract_best_deal_price`)

`re.search(r"\$([0-9]+(?:\.[0-9]{1,2})?)", ...)` scanned left to right;
Python's `float` of the matched decimal string is embedded as the exact
rational value. -/

def digitsToNat (ds : List Char) : ℕ :=
  ds.foldl (fun n c => 10 * n + (c.toNat - 48)) 0

/-- The rational value of `float("<int>.<frac>")`. -/
def ratOfDigits (intPart fracPart : List Char) : ℚ :=
  (digitsToNat intPart : ℚ) + (digitsToNat fracPart : ℚ) / (10 ^ fracPart.length : ℚ)

/-- Leftmost match of `\$([0-9]+(?:\.[0-9]{1,2})?)`, parsed as a number. -/
def priceSearch : List Char → Option ℚ
  | [] => none
  | c :: cs =>
    if c = '$' then
      match cs.takeWhile Char.isDigit with
      | [] => priceSearch cs
      | ds =>
        match cs.dropWhile Char.isDigit with
        | '.' :: r2 =>
          match (r2.takeWhile Char.isDigit).take 2 with
          | [] => some (ratOfDigits ds [])
          | fs => some (ratOfDigits ds fs)
        | _ => some (ratOfDigits ds [])
    else priceSearch cs

/-- The embedding of `extract_best_deal_price(best_deal_message)`; the
argument is `none` when the message is absent, and the falsiness guard also
rejects the empty string. -/
def extractBestDealPrice (best_deal_message : Option String) : Option ℚ :=
  match best_deal_message with
  | none => none
  | some m => if m = "" then none else priceSearch m.data

/-! ## Lemmas about the similarity heuristic -/

lemma interCard_comm (a b : List String) : interCard a b = interCard b a := by
  unfold interCard
  rw [Finset.inter_comm]

lemma unionCard_comm (a b : List String) : unionCard a b = unionCard b a := by
  unfold unionCard
  rw [Finset.union_comm]

lemma overlapRatio_comm (a b : List String) : overlapRatio a b = overlapRatio b a := by
  unfold overlapRatio
  rw [interCard_comm, unionCard_comm]

/-- The heuristic `calculate_name_similarity` is symmetric in its two arguments. -/
lemma calculateNameSimilarity_comm (n1 n2 : String) :
    calculateNameSimilarity n1 n2 = calculateNameSimilarity n2 n1 := by
  unfold calculateNameSimilarity
  by_cases h1 : n1 = "" ∨ n2 = ""
  · rw [if_pos h1, if_pos (Or.symm h1)]
  · have h1s : ¬(n2 = "" ∨ n1 = "") := fun h => h1 (Or.symm h)
    rw [if_neg h1, if_neg h1s]
    simp only []
    by_cases h2 : filteredWords n1 = [] ∨ filteredWords n2 = []
    · rw [if_pos h2, if_pos (Or.symm h2)]
    · have h2s : ¬(filteredWords n2 = [] ∨ filteredWords n1 = []) := fun h => h2 (Or.symm h)
      rw [if_neg h2, if_neg h2s]
      have hb : (brand_words.any fun b =>
            (filteredWords n1).contains b && (filteredWords n2).contains b)
          = (brand_words.any fun b =>
            (filteredWords n2).contains b && (filteredWords n1).contains b) := by
        apply congrArg
        funext b
        exact Bool.and_comm _ _
      rw [hb]
      by_cases h3 : (brand_words.any fun b =>
          (filteredWords n2).contains b && (filteredWords n1).contains b) = true
      · rw [if_pos h3, if_pos h3]
        by_cases h4 : coreWords (filteredWords n1) = [] ∨ coreWords (filteredWords n2) = []
        · rw [if_pos h4, if_pos (Or.symm h4)]
        · have h4s : ¬(coreWords (filteredWords n2) = [] ∨ coreWords (filteredWords n1) = []) :=
            fun h => h4 (Or.symm h)
          rw [if_neg h4, if_neg h4s, overlapRatio_comm]
      · rw [if_neg h3, if_neg h3, overlapRatio_comm]

lemma entryMatches_comm (a b : CartItem) : entryMatches a b = entryMatches b a := by
  unfold entryMatches nbMatch
  rw [calculateNameSimilarity_comm (pyLower a.name),
      calculateNameSimilarity_comm (pyLower a.brand)]

/-! ## Lemmas about the reconciliation pass -/

/-- The `(name, brand)` footprint that the matching test reads. -/
def nbProfile (e : String × CartItem) : String × String := (e.2.name, e.2.brand)

lemma mergeItems_name (m x : CartItem) : (mergeItems m x).name = m.name := rfl

lemma mergeItems_brand (m x : CartItem) : (mergeItems m x).brand = m.brand := rfl

lemma updateEntry_merge_profile (c : Cart) (k : String) (x : CartItem) :
    (updateEntry c k (fun m => mergeItems m x)).map nbProfile = c.map nbProfile := by
  induction c with
  | nil => rfl
  | cons e rest ih =>
    obtain ⟨k', it⟩ := e
    unfold updateEntry
    by_cases hk : k' = k
    · rw [if_pos hk]
      simp [nbProfile, mergeItems]
    · rw [if_neg hk]
      simp only [List.map_cons, ih]

lemma findMatchingCartKey_eq_none_iff (c : Cart) (cand : CartItem) :
    findMatchingCartKey c cand = none ↔ ∀ e ∈ c, entryMatches cand e.2 = false := by
  induction c with
  | nil => simp [findMatchingCartKey]
  | cons e rest ih =>
    obtain ⟨k, it⟩ := e
    unfold findMatchingCartKey
    by_cases hm : entryMatches cand it = true
    · simp [hm]
    · simp only [Bool.not_eq_true] at hm
      simp [hm, ih]

lemma findMatchingCartKey_some_mem (c : Cart) (cand : CartItem) (k : String)
    (h : findMatchingCartKey c cand = some k) : ∃ it, (k, it) ∈ c := by
  induction c with
  | nil => simp [findMatchingCartKey] at h
  | cons e rest ih =>
    obtain ⟨k', it⟩ := e
    unfold findMatchingCartKey at h
    by_cases hm : entryMatches cand it = true
    · rw [if_pos hm] at h
      injection h with hkk
      subst hkk
      exact ⟨it, List.mem_cons_self _ _⟩
    · rw [if_neg hm] at h
      obtain ⟨it', hmem⟩ := ih h
      exact ⟨it', by simp [hmem]⟩

lemma totalCount_append (c d : Cart) : totalCount (c ++ d) = totalCount c + totalCount d := by
  simp [totalCount]

lemma totalCount_updateEntry_merge (c : Cart) (k : String) (x : CartItem)
    (hk : ∃ it, (k, it) ∈ c) :
    totalCount (updateEntry c k (fun m => mergeItems m x)) = totalCount c + x.count := by
  induction c with
  | nil => simp at hk
  | cons e rest ih =>
    obtain ⟨k', it⟩ := e
    unfold updateEntry
    by_cases hkk : k' = k
    · rw [if_pos hkk]
      simp only [totalCount, List.map_cons, List.sum_cons, mergeItems]
      ring
    · rw [if_neg hkk]
      have hk' : ∃ it, (k, it) ∈ rest := by
        obtain ⟨it', hmem⟩ := hk
        rcases List.mem_cons.mp hmem with heq | hmem'
        · exact absurd (congrArg Prod.fst heq).symm hkk
        · exact ⟨it', hmem'⟩
      simp only [totalCount, List.map_cons, List.sum_cons] at ih ⊢
      rw [ih hk']
      ring

lemma totalCount_foldl_dedupStep (l : List (String × CartItem)) :
    ∀ acc : Cart, totalCount (l.foldl dedupStep acc) = totalCount acc + totalCount l := by
  induction l with
  | nil => intro acc; simp [totalCount]
  | cons e rest ih =>
    intro acc
    rw [List.foldl_cons, ih]
    have hstep : totalCount (dedupStep acc e) = totalCount acc + e.2.count := by
      unfold dedupStep
      cases hfind : findMatchingCartKey acc e.2 with
      | some k =>
        exact totalCount_updateEntry_merge acc k e.2 (findMatchingCartKey_some_mem acc e.2 k hfind)
      | none =>
        rw [totalCount_append]
        simp [totalCount]
    rw [hstep]
    simp only [totalCount, List.map_cons, List.sum_cons]
    ring

/-- The pairwise separation relation maintained by the dedup accumulator:
a later entry never matches an earlier one. -/
def nbFail (p q : String × String) : Prop := nbMatch q p = false

lemma pairwise_foldl_dedupStep (l : List (String × CartItem)) :
    ∀ acc : Cart, ((acc.map nbProfile).Pairwise nbFail) →
      (((l.foldl dedupStep acc).map nbProfile).Pairwise nbFail) := by
  induction l with
  | nil => intro acc h; exact h
  | cons e rest ih =>
    intro acc h
    rw [List.foldl_cons]
    apply ih
    unfold dedupStep
    cases hfind : findMatchingCartKey acc e.2 with
    | some k =>
      rw [updateEntry_merge_profile]
      exact h
    | none =>
      rw [List.map_append]
      rw [List.pairwise_append]
      refine ⟨h, by simp, ?_⟩
      intro p hp q hq
      simp only [List.map_cons, List.map_nil, List.mem_singleton] at hq
      subst hq
      obtain ⟨a, hmem, hpa⟩ := List.mem_map.mp hp
      have hall := (findMatchingCartKey_eq_none_iff acc e.2).mp hfind
      have := hall a hmem
      unfold nbFail
      rw [← hpa]
      exact this

lemma foldl_dedupStep_no_match (l : List (String × CartItem)) :
    ∀ acc : Cart,
      (∀ a ∈ acc, ∀ e ∈ l, entryMatches e.2 a.2 = false) →
      l.Pairwise (fun a b => entryMatches b.2 a.2 = false) →
      l.foldl dedupStep acc = acc ++ l := by
  induction l with
  | nil => intro acc _ _; simp
  | cons e rest ih =>
    intro acc hsep hpw
    rw [List.foldl_cons]
    have hnone : findMatchingCartKey acc e.2 = none := by
      rw [findMatchingCartKey_eq_none_iff]
      intro a ha
      exact hsep a ha e (by simp)
    have hstep : dedupStep acc e = acc ++ [e] := by
      unfold dedupStep
      rw [hnone]
    rw [hstep]
    rw [ih (acc ++ [e]) ?_ (List.Pairwise.sublist (List.sublist_cons_self e rest) hpw)]
    · simp
    · intro a ha x hx
      rcases List.mem_append.mp ha with ha' | ha'
      · exact hsep a ha' x (by simp [hx])
      · simp only [List.mem_singleton] at ha'
        subst ha'
        exact (List.pairwise_cons.mp hpw).1 x hx

/-! ## Claim theorems -/

/-- C2: for every cart state, running `deduplicate_cart_entries` twice in a
row produces the same cart as running it once, and its output contains no
pair of entries whose name and brand similarities both exceed 0.8. -/
theorem C2_deduplicate_idempotent (cart : Cart) :
    deduplicateCartEntries (deduplicateCartEntries cart) = deduplicateCartEntries cart
  ∧ (deduplicateCartEntries cart).Pairwise
      (fun a b => entryMatches b.2 a.2 = false ∧ entryMatches a.2 b.2 = false) := by
  have hp : ((deduplicateCartEntries cart).map nbProfile).Pairwise nbFail :=
    pairwise_foldl_dedupStep cart [] (by simp)
  have hpw : (deduplicateCartEntries cart).Pairwise
      (fun a b => entryMatches b.2 a.2 = false) := by
    rw [List.pairwise_map] at hp
    exact hp
  constructor
  · rw [deduplicateCartEntries]
    rw [foldl_dedupStep_no_match (deduplicateCartEntries cart) [] (by simp) hpw]
    simp
  · exact hpw.imp (fun h => ⟨h, by rw [entryMatches_comm]; exact h⟩)

/-- C10: the reconciliation pass preserves the total item count: the sum of
the `count` fields over the output of `deduplicate_cart_entries` equals the
sum over its input. -/
theorem C10_deduplicate_preserves_total_count (cart : Cart) :
    totalCount (deduplicateCartEntries cart) = totalCount cart := by
  rw [deduplicateCartEntries, totalCount_foldl_dedupStep cart []]
  simp [totalCount]

/-- C6: when the reconciliation pass merges two entries (name and brand
similarities both above 0.8), the surviving record has the summed `count`,
the max `confidence`, the max `last_seen`, the more recently merged non-null
`deal_analysis`, the first non-null `price`, and the most recent non-null
`image_path`. -/
theorem C6_merge_field_rules (k1 k2 : String) (a b : CartItem)
    (h : entryMatches b a = true) :
    deduplicateCartEntries [(k1, a), (k2, b)] = [(k1, mergeItems a b)]
  ∧ (mergeItems a b).count = a.count + b.count
  ∧ (mergeItems a b).confidence = max a.confidence b.confidence
  ∧ (mergeItems a b).last_seen = max a.last_seen b.last_seen
  ∧ (mergeItems a b).deal_analysis
      = (if b.deal_analysis.isSome then b.deal_analysis else a.deal_analysis)
  ∧ (mergeItems a b).price = (if a.price.isSome then a.price else b.price)
  ∧ (mergeItems a b).image_path
      = (if b.image_path.isSome then b.image_path else a.image_path) := by
  refine ⟨?_, rfl, rfl, rfl, rfl, ?_, rfl⟩
  · simp [deduplicateCartEntries, dedupStep, findMatchingCartKey, updateEntry, h]
  · show (if b.price.isSome && a.price.isNone then b.price else a.price)
        = (if a.price.isSome then a.price else b.price)
    cases a.price <;> cases b.price <;> simp

/-- Witness for C6 at a concrete merging pair. -/
theorem C6_merge_field_rules_witness :
    deduplicateCartEntries
        [("coca-cola can_coca-cola",
          { name := "Coca-Cola Can", brand := "Coca-Cola", category := "beverage",
            count := 2, confidence := 0.95, last_seen := 10, deal_analysis := none,
            price := none, image_path := some "captures/a.jpg" }),
         ("coca-cola bottle_coca-cola",
          { name := "Coca-Cola Bottle", brand := "Coca-Cola", category := "beverage",
            count := 3, confidence := 0.9, last_seen := 25,
            deal_analysis := some "deal", price := some 1.35,
            image_path := some "captures/b.jpg" })]
      = [("coca-cola can_coca-cola",
          { name := "Coca-Cola Can", brand := "Coca-Cola", category := "beverage",
            count := 5, confidence := 0.95, last_seen := 25,
            deal_analysis := some "deal", price := some 1.35,
            image_path := some "captures/b.jpg" })] := by
  have h := (C6_merge_field_rules "coca-cola can_coca-cola" "coca-cola bottle_coca-cola"
    { name := "Coca-Cola Can", brand := "Coca-Cola", category := "beverage",
      count := 2, confidence := 0.95, last_seen := 10, deal_analysis := none,
      price := none, image_path := some "captures/a.jpg" }
    { name := "Coca-Cola Bottle", brand := "Coca-Cola", category := "beverage",
      count := 3, confidence := 0.9, last_seen := 25,
      deal_analysis := some "deal", price := some 1.35,
      image_path := some "captures/b.jpg" }
    (by decide)).1
  rw [h]
  decide

lemma isDuplicateItem_of_mem (cart : Cart) (object_name brand : String)
    (k : String) (it : CartItem) (hmem : (k, it) ∈ cart)
    (hn : 0.8 < calculateNameSimilarity (pyLower object_name) (pyLower it.name))
    (hb : 0.8 < calculateNameSimilarity (pyLower brand) (pyLower it.brand)) :
    isDuplicateItem cart object_name brand = true := by
  unfold isDuplicateItem
  rw [List.any_eq_true]
  exact ⟨(k, it), hmem, by simp [hn, hb]⟩

/-- C1 (amended): when some existing cart entry has name similarity and
brand similarity with the incoming classification both above 0.8, the
`update_cart` loop body never inserts a new CartItem under any key and
leaves the cart unchanged — the classification is suppressed outright by
`is_duplicate_item`, so no `count` is incremented either. -/
theorem C1_similar_classification_suppressed (llm : Classification → ℚ → Bool)
    (s : ClassifierState) (current_time : ℚ) (image_path : Option String)
    (obj : Classification) (k : String) (it : CartItem)
    (hmem : (k, it) ∈ s.cart)
    (hn : 0.8 < calculateNameSimilarity (pyLower obj.object_name) (pyLower it.name))
    (hb : 0.8 < calculateNameSimilarity
        (pyLower (normalizeBrandName obj.brand)) (pyLower it.brand)) :
    (processObj llm s current_time image_path obj).1.cart = s.cart
  ∧ (processObj llm s current_time image_path obj).2 = false := by
  have hdup : isDuplicateItem s.cart obj.object_name (normalizeBrandName obj.brand) = true :=
    isDuplicateItem_of_mem s.cart obj.object_name (normalizeBrandName obj.brand) k it hmem hn hb
  unfold processObj
  simp only [hdup]
  split_ifs <;> simp

/-- Witness for the amended C1 at a concrete cart and classification. -/
theorem C1_similar_classification_suppressed_witness :
    (processObj (fun _ _ => false)
        { cart := [("coca-cola can_coca-cola",
            { name := "Coca-Cola Can", brand := "Coca-Cola", category := "beverage",
              count := 1, confidence := 0.95, last_seen := 100, deal_analysis := none,
              price := none, image_path := none })],
          last_cart_update := [("coca-cola can_coca-cola", 100)],
          bag_detected := false, bag_detection_confidence := 0 }
        101 none
        { object_name := "Coca-Cola Can", brand := "Coca-Cola", category := "beverage",
          confidence := 0.92 }).1.cart
      = [("coca-cola can_coca-cola",
          { name := "Coca-Cola Can", brand := "Coca-Cola", category := "beverage",
            count := 1, confidence := 0.95, last_seen := 100, deal_analysis := none,
            price := none, image_path := none })] :=
  (C1_similar_classification_suppressed (fun _ _ => false)
    { cart := [("coca-cola can_coca-cola",
        { name := "Coca-Cola Can", brand := "Coca-Cola", category := "beverage",
          count := 1, confidence := 0.95, last_seen := 100, deal_analysis := none,
          price := none, image_path := none })],
      last_cart_update := [("coca-cola can_coca-cola", 100)],
      bag_detected := false, bag_detection_confidence := 0 }
    101 none
    { object_name := "Coca-Cola Can", brand := "Coca-Cola", category := "beverage",
      confidence := 0.92 }
    "coca-cola can_coca-cola"
    { name := "Coca-Cola Can", brand := "Coca-Cola", category := "beverage",
      count := 1, confidence := 0.95, last_seen := 100, deal_analysis := none,
      price := none, image_path := none }
    (by decide) (by decide) (by decide)).1

/-- Counterexample to C1 as stated: two classifications whose name and brand
similarities both exceed 0.8; the first creates the entry with `count = 1`,
and processing the second through `update_cart` leaves the state unchanged —
the matching entry's `count` does not increase. -/
theorem C1_counterexample :
    (0.8 < calculateNameSimilarity (pyLower "Coca-Cola Can") (pyLower "Coca-Cola Can")
    ∧ 0.8 < calculateNameSimilarity
        (pyLower (normalizeBrandName "Coca-Cola")) (pyLower (normalizeBrandName "Coca-Cola")))
  ∧ (lookupKey (processObj (fun _ _ => false)
        { cart := [], last_cart_update := [], bag_detected := false,
          bag_detection_confidence := 0 }
        100 none
        { object_name := "Coca-Cola Can", brand := "Coca-Cola", category := "beverage",
          confidence := 0.95 }).1.cart "coca-cola can_coca-cola").map CartItem.count
      = some 1
  ∧ processObj (fun _ _ => false)
      (processObj (fun _ _ => false)
        { cart := [], last_cart_update := [], bag_detected := false,
          bag_detection_confidence := 0 }
        100 none
        { object_name := "Coca-Cola Can", brand := "Coca-Cola", category := "beverage",
          confidence := 0.95 }).1
      101 none
      { object_name := "Coca-Cola Can", brand := "Coca-Cola", category := "beverage",
        confidence := 0.92 }
    = ((processObj (fun _ _ => false)
        { cart := [], last_cart_update := [], bag_detected := false,
          bag_detection_confidence := 0 }
        100 none
        { object_name := "Coca-Cola Can", brand := "Coca-Cola", category := "beverage",
          confidence := 0.95 }).1, false) := by
  refine ⟨⟨by decide, by decide⟩, by decide, by decide⟩

/-- C4: a classification with confidence strictly below 0.88 causes no cart
mutation whatsoever: the `update_cart` loop body returns the state unchanged
(no key inserted, no `count`, `last_seen` or `image_path` touched) and does
not raise the `cart_modified` flag, for any name, brand or category. -/
theorem C4_low_confidence_never_mutates (llm : Classification → ℚ → Bool)
    (s : ClassifierState) (current_time : ℚ) (image_path : Option String)
    (obj : Classification) (h : obj.confidence < MIN_CONFIDENCE_THRESHOLD) :
    processObj llm s current_time image_path obj = (s, false)
  ∧ updateCart llm s current_time image_path [obj] = (s, false) := by
  have h1 : processObj llm s current_time image_path obj = (s, false) := by
    unfold processObj
    simp only [if_pos h]
  exact ⟨h1, by simp [updateCart, h1]⟩

/-- Witness for C4 at a concrete low-confidence classification. -/
theorem C4_low_confidence_never_mutates_witness :
    processObj (fun _ _ => false)
      { cart := [], last_cart_update := [], bag_detected := false,
        bag_detection_confidence := 0 }
      100 none
      { object_name := "Pringles Original", brand := "Pringles", category := "snack",
        confidence := 0.5 }
    = ({ cart := [], last_cart_update := [], bag_detected := false,
         bag_detection_confidence := 0 }, false) :=
  (C4_low_confidence_never_mutates (fun _ _ => false)
    { cart := [], last_cart_update := [], bag_detected := false,
      bag_detection_confidence := 0 }
    100 none
    { object_name := "Pringles Original", brand := "Pringles", category := "snack",
      confidence := 0.5 }
    (by decide)).1

/-- A concrete correlation metric for exercising the scene-change detector:
correlation 1 for identical histograms, 0 otherwise. -/
def corrSample : Hist → Hist → ℚ := fun a b => if a = b then 1 else 0

/-- C3 (code bug): the stored `previous_histogram` is assigned only on the
very first processed frame and is never advanced afterwards, so from the
third frame on the scene-change signal is correlated against the first
frame's histogram, not the immediately previous frame's.  Concretely, with
frames whose histograms are `[1]`, `[2]`, `[2]`, the third frame is flagged
as a scene change even though it is identical to its immediately previous
frame (correlation 1, not below 0.7). -/
theorem C3_previous_histogram_never_advances :
    (∀ (corr : Hist → Hist → ℚ) (h0 : Hist) (hs : List Hist),
      (runSceneDetector corr (some h0) hs).2 = some h0)
  ∧ (runSceneDetector corrSample none [[1], [2], [2]]).1 = [false, true, true]
  ∧ decide (corrSample [2] [2] < HISTOGRAM_COMPARISON_THRESHOLD) = false := by
  refine ⟨?_, by decide, by decide⟩
  intro corr h0 hs
  induction hs with
  | nil => rfl
  | cons h rest ih => simpa [runSceneDetector, detectSceneChange] using ih

/-- C5: `capture_image` is a pure rate limiter: a trigger within 2.0s of the
last successful capture saves nothing and records nothing; outside the
window a successful `cv2.imwrite` saves one image and records the capture
time, while a failed write records nothing.  Two triggers 0.5s apart yield
exactly one saved image and two triggers 2.5s apart yield two. -/
theorem C5_capture_cooldown (ok : Bool) (ts lb cf : String) (s t : ℚ) :
    (t - s < CAPTURE_COOLDOWN → captureImage ok ts lb cf s t = (s, none))
  ∧ (CAPTURE_COOLDOWN ≤ t - s →
      captureImage true ts lb cf s t
        = (t, some ("captures/" ++ (ts ++ "_" ++ lb ++ "_" ++ cf ++ ".jpg"))))
  ∧ (CAPTURE_COOLDOWN ≤ t - s → captureImage false ts lb cf s t = (s, none))
  ∧ (CAPTURE_COOLDOWN ≤ t - s →
      (captureImage true ts lb cf s t).2.isSome = true
    ∧ (captureImage true ts lb cf (captureImage true ts lb cf s t).1 (t + 0.5)).2 = none
    ∧ (captureImage true ts lb cf (captureImage true ts lb cf s t).1 (t + 2.5)).2.isSome
        = true) := by
  have hcd : CAPTURE_COOLDOWN = 2 := by norm_num [CAPTURE_COOLDOWN]
  refine ⟨fun h => ?_, fun h => ?_, fun h => ?_, fun h => ?_⟩
  · unfold captureImage
    rw [if_pos h]
  · unfold captureImage
    rw [if_neg (not_lt.mpr h)]
    rfl
  · unfold captureImage
    rw [if_neg (not_lt.mpr h)]
    rfl
  · have h2 : captureImage true ts lb cf s t
        = (t, some ("captures/" ++ (ts ++ "_" ++ lb ++ "_" ++ cf ++ ".jpg"))) := by
      unfold captureImage
      rw [if_neg (not_lt.mpr h)]
      rfl
    refine ⟨by rw [h2]; rfl, ?_, ?_⟩
    · rw [h2]
      unfold captureImage
      rw [if_pos (by rw [hcd]; norm_num)]
    · rw [h2]
      unfold captureImage
      rw [if_neg (by rw [hcd]; norm_num)]
      rfl

/-- Witness for C5 at concrete times: the first capture at `t = 10` succeeds,
a second trigger 0.5s later is suppressed, and a trigger 2.5s later saves a
second image. -/
theorem C5_capture_cooldown_witness :
    (captureImage true "20251012-120000" "motion" "0.80" 0 10).2.isSome = true
  ∧ (captureImage true "20251012-120000" "motion" "0.80"
      (captureImage true "20251012-120000" "motion" "0.80" 0 10).1 (10 + 0.5)).2 = none
  ∧ (captureImage true "20251012-120000" "motion" "0.80"
      (captureImage true "20251012-120000" "motion" "0.80" 0 10).1 (10 + 2.5)).2.isSome
      = true :=
  (C5_capture_cooldown true "20251012-120000" "motion" "0.80" 0 10).2.2.2 (by decide)

lemma runMutations_chain (ts : List ℚ) :
    ∀ (t0 : ℚ) (w : ℕ),
      List.Chain (fun a b => a ≤ b ∧ b - a < RESULTS_FLUSH_DELAY) t0 ts →
      runMutations ⟨some (t0 + RESULTS_FLUSH_DELAY), w⟩ ts
        = ⟨((t0 :: ts).getLast (List.cons_ne_nil t0 ts)) + RESULTS_FLUSH_DELAY, w⟩ := by
  induction ts with
  | nil =>
    intro t0 w _
    simp [runMutations]
  | cons t1 rest ih =>
    intro t0 w hchain
    rcases List.chain_cons.mp hchain with ⟨⟨hle, hlt⟩, hchain'⟩
    have hn : ¬ (t0 + RESULTS_FLUSH_DELAY ≤ t1) := not_le.mpr (by linarith)
    have hstep : cartMutation ⟨some (t0 + RESULTS_FLUSH_DELAY), w⟩ t1
        = ⟨some (t1 + RESULTS_FLUSH_DELAY), w⟩ := by
      simp [cartMutation, completePending, scheduleCartFlush, hn]
    rw [runMutations, List.foldl_cons, hstep]
    have hrec := ih t1 w hchain'
    rw [runMutations] at hrec
    rw [hrec, List.getLast_cons (List.cons_ne_nil t1 rest)]

/-- C7: mutations are debounced through a single flush slot: each
`schedule_cart_flush` cancels the outstanding not-yet-completed flush task
and creates one new task due `RESULTS_FLUSH_DELAY` after this mutation, so a
burst of mutations each within less than 2.0s of the previous produces
exactly one persisted write, performed by the final task. -/
theorem C7_debounce_single_write (t0 : ℚ) (ts : List ℚ)
    (hchain : List.Chain (fun a b => a ≤ b ∧ b - a < RESULTS_FLUSH_DELAY) t0 ts) :
    runMutations ⟨none, 0⟩ (t0 :: ts)
      = ⟨some (((t0 :: ts).getLast (List.cons_ne_nil t0 ts)) + RESULTS_FLUSH_DELAY), 0⟩
  ∧ (awaitFinalFlush (runMutations ⟨none, 0⟩ (t0 :: ts))).writes = 1 := by
  have hfirst : cartMutation ⟨none, 0⟩ t0 = ⟨some (t0 + RESULTS_FLUSH_DELAY), 0⟩ := rfl
  have hrun : runMutations ⟨none, 0⟩ (t0 :: ts)
      = ⟨some (((t0 :: ts).getLast (List.cons_ne_nil t0 ts)) + RESULTS_FLUSH_DELAY), 0⟩ := by
    rw [runMutations, List.foldl_cons, hfirst]
    exact runMutations_chain ts t0 0 hchain
  exact ⟨hrun, by rw [hrun]; rfl⟩

/-- Witness for C7: three mutations at times 0, 1 and 1.5 (each within 2.0s
of the previous) produce exactly one persisted write. -/
theorem C7_debounce_single_write_witness :
    (awaitFinalFlush (runMutations ⟨none, 0⟩ [0, 1, 1.5])).writes = 1 :=
  (C7_debounce_single_write 0 [1, 1.5]
    (List.Chain.cons ⟨by norm_num, by norm_num [RESULTS_FLUSH_DELAY]⟩
      (List.Chain.cons ⟨by norm_num, by norm_num [RESULTS_FLUSH_DELAY]⟩
        List.Chain.nil))).2

/-- C8: `check_cart_duplicate_with_llm` always returns a boolean and never
propagates an exception: when the external service call fails, when the
response text is not parseable JSON, or when the parsed result is not a
dictionary, it returns `False` (fail open). -/
theorem C8_llm_check_fail_open (jsonLoads : String → Option PyVal) (geminiOk : Bool)
    (response : Except Unit String) :
    (geminiOk = false → checkCartDuplicateWithLLM jsonLoads geminiOk response = false)
  ∧ (response = Except.error () →
      checkCartDuplicateWithLLM jsonLoads geminiOk response = false)
  ∧ (∀ text, response = Except.ok text → jsonLoads (jsonCandidate text) = none →
      checkCartDuplicateWithLLM jsonLoads geminiOk response = false)
  ∧ (∀ text v, response = Except.ok text → jsonLoads (jsonCandidate text) = some v →
      (∀ d, v ≠ PyVal.pyDict d) →
      checkCartDuplicateWithLLM jsonLoads geminiOk response = false) := by
  refine ⟨fun hg => ?_, fun hr => ?_, fun text hr hp => ?_, fun text v hr hp hv => ?_⟩
  · simp [checkCartDuplicateWithLLM, hg]
  · subst hr
    unfold checkCartDuplicateWithLLM
    cases geminiOk <;> simp
  · subst hr
    unfold checkCartDuplicateWithLLM
    cases geminiOk <;> simp [hp]
  · subst hr
    unfold checkCartDuplicateWithLLM
    cases geminiOk
    · simp
    · simp only [Bool.not_true, Bool.false_eq_true, if_false, hp]
      cases v with
      | pyDict d => exact absurd rfl (hv d)
      | pyNone => rfl
      | pyBool b => rfl
      | pyNum q => rfl
      | pyStr s => rfl
      | pyList l => rfl

/-- Witness for C8: a non-JSON response, a parsed non-dict response, and a
failed service call each yield `false`. -/
theorem C8_llm_check_fail_open_witness :
    checkCartDuplicateWithLLM (fun _ => none) true (Except.ok "service glitch") = false
  ∧ checkCartDuplicateWithLLM (fun _ => some (PyVal.pyList [])) true (Except.ok "[]") = false
  ∧ checkCartDuplicateWithLLM (fun _ => none) true (Except.error ()) = false :=
  ⟨(C8_llm_check_fail_open (fun _ => none) true
      (Except.ok "service glitch")).2.2.1 "service glitch" rfl rfl,
   (C8_llm_check_fail_open (fun _ => some (PyVal.pyList [])) true
      (Except.ok "[]")).2.2.2 "[]" (PyVal.pyList []) rfl rfl
      (fun _ h => PyVal.noConfusion h),
   (C8_llm_check_fail_open (fun _ => none) true (Except.error ())).2.1 rfl⟩

/-- C9: `extract_best_deal_price` returns the first `$<number>` pattern of
the message parsed as a number, and `None` (with no exception possible) when
no such pattern exists or the message is absent; in particular the two
spec examples hold, and with two prices present the first one is returned. -/
theorem C9_extract_best_deal_price :
    extractBestDealPrice (some "best deal is $1.75 at Dollar General") = some 1.75
  ∧ extractBestDealPrice (some "no price mentioned") = none
  ∧ extractBestDealPrice none = none
  ∧ extractBestDealPrice (some "") = none
  ∧ extractBestDealPrice (some "the best deal is $2.50, but $9.99 elsewhere") = some 2.5 := by
  refine ⟨by decide, by decide, rfl, by decide, by decide⟩

end CenterObjectClassifier
